import Mathlib

/-!
Verification of the decoder-assembly core of `segmentation_models_dev`
(`models/unet.py`): a shallow embedding of the graph-construction
algorithm.  A "tensor" is represented by its symbolic shape (height,
width, channels); graph construction is embedded as a pure function that
threads the ordered list of created graph nodes.  A Python `ValueError`
(or `IndexError`) is embedded as `Except.error`; the error value carries
the list of graph nodes that had already been created at the moment the
exception was raised, so that "fails before creating any node" is a
statement about the error payload.
-/

/-- Symbolic shape of a Keras tensor: spatial height/width and channel count. -/
structure Tensor where
  h : Nat
  w : Nat
  c : Nat
deriving Repr, DecidableEq

/-- One graph node created by the decoder core, with the static layer
attributes that the source passes to the tensor library. -/
inductive Node where
  | upSampling2D (size : Nat) (nodeName : String)
  | conv2DTranspose (filters kh kw sh sw : Nat) (padding : String) (useBias : Bool) (nodeName : String)
  | concatenate (axis : Nat) (nodeName : String)
  | conv2D (filters kh kw : Nat) (padding : String) (useBias : Bool) (kernelInitializer : String) (nodeName : String)
  | batchNormalization (axis : Nat) (nodeName : String)
  | groupNormalization (groups axis : Nat) (nodeName : String)
  | dropout (nodeName : String)
  | activationLayer (act : String) (nodeName : String)
deriving Repr, DecidableEq

/-- The name of a graph node. -/
def Node.name : Node → String
  | .upSampling2D _ n => n
  | .conv2DTranspose _ _ _ _ _ _ _ n => n
  | .concatenate _ n => n
  | .conv2D _ _ _ _ _ _ n => n
  | .batchNormalization _ n => n
  | .groupNormalization _ _ n => n
  | .dropout n => n
  | .activationLayer _ n => n

/-- `3 if backend.image_data_format() == 'channels_last' else 1`
(the channel axis convention used by every block in `unet.py`). -/
def axisOf (fmt : String) : Nat :=
  if fmt = "channels_last" then 3 else 1

/-- Modelled from the spec: the node sequence of the `Conv2dBn` primitive
(file `_common_blocks.py`, not under `src/`).  Spec section 4.1: 3x3-style
convolution (same padding, deterministic initializer, bias only when
normalization is absent), then batch normalization along the channel axis
when requested, then optional dropout, then the activation.  Sub-node
names are derived deterministically from the block name and the role. -/
def conv2dBnNodes (fmt : String) (filters kernel : Nat) (act kernel_initializer padding : String)
    (use_batchnorm : Bool) (blockName : String) (drop_rate : Option Nat) : List Node :=
  [Node.conv2D filters kernel kernel padding (!use_batchnorm) kernel_initializer (blockName ++ "_conv")]
    ++ (if use_batchnorm then [Node.batchNormalization (axisOf fmt) (blockName ++ "_bn")] else [])
    ++ (match drop_rate with
        | some _ => [Node.dropout (blockName ++ "_dropout")]
        | none => [])
    ++ [Node.activationLayer act (blockName ++ "_" ++ act)]

/-- Modelled from the spec: the node sequence of the `Conv2dGn` primitive
(file `_common_blocks.py`, not under `src/`).  Same as `conv2dBnNodes`
but with a group-normalization stage when requested. -/
def conv2dGnNodes (fmt : String) (filters kernel : Nat) (act kernel_initializer padding : String)
    (use_groupnorm : Bool) (groupnorm_groups : Nat) (blockName : String) (drop_rate : Option Nat) : List Node :=
  [Node.conv2D filters kernel kernel padding (!use_groupnorm) kernel_initializer (blockName ++ "_conv")]
    ++ (if use_groupnorm then [Node.groupNormalization groupnorm_groups (axisOf fmt) (blockName ++ "_gn")] else [])
    ++ (match drop_rate with
        | some _ => [Node.dropout (blockName ++ "_dropout")]
        | none => [])
    ++ [Node.activationLayer act (blockName ++ "_" ++ act)]

/-- Modelled from the spec: `Conv2dBn` (file `_common_blocks.py`, not under
`src/`).  Appends its node sequence to the graph and produces a tensor of
the same spatial size with `filters` channels (spec section 4.1 contract). -/
def Conv2dBn (fmt : String) (filters kernel : Nat) (act kernel_initializer padding : String)
    (use_batchnorm : Bool) (blockName : String) (drop_rate : Option Nat)
    (x : Tensor) (g : List Node) : List Node × Tensor :=
  (g ++ conv2dBnNodes fmt filters kernel act kernel_initializer padding use_batchnorm blockName drop_rate,
   ⟨x.h, x.w, filters⟩)

/-- Modelled from the spec: `Conv2dGn` (file `_common_blocks.py`, not under
`src/`), group-normalization analogue of `Conv2dBn`. -/
def Conv2dGn (fmt : String) (filters kernel : Nat) (act kernel_initializer padding : String)
    (use_groupnorm : Bool) (groupnorm_groups : Nat) (blockName : String) (drop_rate : Option Nat)
    (x : Tensor) (g : List Node) : List Node × Tensor :=
  (g ++ conv2dGnNodes fmt filters kernel act kernel_initializer padding use_groupnorm groupnorm_groups blockName drop_rate,
   ⟨x.h, x.w, filters⟩)

/-- `Conv3x3BnReLU` from `unet.py`: a `Conv2dBn` with kernel 3, relu
activation, he_uniform initializer and same padding. -/
def Conv3x3BnReLU (fmt : String) (filters : Nat) (use_batchnorm : Bool) (drop_rate : Option Nat)
    (blockName : String) (x : Tensor) (g : List Node) : List Node × Tensor :=
  Conv2dBn fmt filters 3 "relu" "he_uniform" "same" use_batchnorm blockName drop_rate x g

/-- `Conv3x3GnReLU` from `unet.py`: a `Conv2dGn` with kernel 3, relu
activation, he_uniform initializer and same padding. -/
def Conv3x3GnReLU (fmt : String) (filters : Nat) (use_groupnorm : Bool) (groupnorm_groups : Nat)
    (drop_rate : Option Nat) (blockName : String) (x : Tensor) (g : List Node) : List Node × Tensor :=
  Conv2dGn fmt filters 3 "relu" "he_uniform" "same" use_groupnorm groupnorm_groups blockName drop_rate x g

/-- `DecoderUpsamplingX2Block` from `unet.py` (lines 68-95).  The factory
itself checks the normalization exclusivity (line 76) and raises before
returning the wrapper; the wrapper upsamples by 2, concatenates the skip
when one is bound, and applies two conv blocks. -/
def DecoderUpsamplingX2Block (fmt : String) (filters stage : Nat) (drop_rate : Option Nat)
    (use_groupnorm : Bool) (groupnorm_groups : Nat) (use_batchnorm : Bool) :
    Except String (Tensor → Option Tensor → List Node → List Node × Tensor) :=
  let up_name := "decoder_stage" ++ toString stage ++ "_upsampling"
  let conv1_name := "decoder_stage" ++ toString stage ++ "a"
  let conv2_name := "decoder_stage" ++ toString stage ++ "b"
  let concat_name := "decoder_stage" ++ toString stage ++ "_concat"
  let concat_axis := axisOf fmt
  if use_batchnorm && use_groupnorm then
    Except.error "Cannot use both BatchNorm and GroupNorm"
  else
    Except.ok (fun input_tensor skip g =>
      let g := g ++ [Node.upSampling2D 2 up_name]
      let x : Tensor := ⟨input_tensor.h * 2, input_tensor.w * 2, input_tensor.c⟩
      let gx : List Node × Tensor :=
        match skip with
        | some s => (g ++ [Node.concatenate concat_axis concat_name], ⟨x.h, x.w, x.c + s.c⟩)
        | none => (g, x)
      if use_groupnorm then
        let gx2 := Conv3x3GnReLU fmt filters use_groupnorm groupnorm_groups drop_rate conv1_name gx.2 gx.1
        Conv3x3GnReLU fmt filters use_groupnorm groupnorm_groups drop_rate conv2_name gx2.2 gx2.1
      else
        let gx2 := Conv3x3BnReLU fmt filters use_batchnorm drop_rate conv1_name gx.2 gx.1
        Conv3x3BnReLU fmt filters use_batchnorm drop_rate conv2_name gx2.2 gx2.1)

/-- `DecoderTransposeX2Block` from `unet.py` (lines 98-140).  The factory
never raises; the inner `layer` first creates the stride-2 4x4 transposed
convolution (bias disabled when any normalization is active, line 116) and
only then checks normalization exclusivity (line 119), so the error
payload already contains the transposed-convolution node.  Note the
source typo in the group-norm node name (line 101, `decoder_state`). -/
def DecoderTransposeX2Block (fmt : String) (filters stage : Nat) (drop_rate : Option Nat)
    (use_groupnorm : Bool) (groupnorm_groups : Nat) (use_batchnorm : Bool)
    (input_tensor : Tensor) (skip : Option Tensor) (g : List Node) :
    Except (String × List Node) (List Node × Tensor) :=
  let transp_name := "decoder_stage" ++ toString stage ++ "a_transpose"
  let bn_name := "decoder_stage" ++ toString stage ++ "a_bn"
  let gn_name := "decoder_state" ++ toString stage ++ "a_gn"
  let relu_name := "decoder_stage" ++ toString stage ++ "a_relu"
  let conv_block_name := "decoder_stage" ++ toString stage ++ "b"
  let concat_name := "decoder_stage" ++ toString stage ++ "_concat"
  let g := g ++ [Node.conv2DTranspose filters 4 4 2 2 "same"
                  (!(use_batchnorm || use_groupnorm)) transp_name]
  let x : Tensor := ⟨input_tensor.h * 2, input_tensor.w * 2, filters⟩
  if use_batchnorm && use_groupnorm then
    Except.error ("Cannot use both BatchNorm and GroupNorm", g)
  else
    let g := if use_batchnorm then g ++ [Node.batchNormalization (axisOf fmt) bn_name] else g
    let g := if use_groupnorm then g ++ [Node.groupNormalization groupnorm_groups (axisOf fmt) gn_name] else g
    let g := g ++ [Node.activationLayer "relu" relu_name]
    let gx : List Node × Tensor :=
      match skip with
      | some s => (g ++ [Node.concatenate (axisOf fmt) concat_name], ⟨x.h, x.w, x.c + s.c⟩)
      | none => (g, x)
    Except.ok
      (if use_groupnorm then
        Conv3x3GnReLU fmt filters use_groupnorm groupnorm_groups drop_rate conv_block_name gx.2 gx.1
      else
        Conv3x3BnReLU fmt filters use_batchnorm drop_rate conv_block_name gx.2 gx.1)

/-- The shape of a decoder stage wrapper: current tensor, optional skip,
nodes so far; it can raise (carrying the nodes created so far). -/
abbrev StageFn := Tensor → Option Tensor → List Node → Except (String × List Node) (List Node × Tensor)

/-- The shape of a decoder block factory as consumed by `build_unet`:
filters, stage, drop_rate, use_groupnorm, groupnorm_groups, use_batchnorm. -/
abbrev DecoderBlock := Nat → Nat → Option Nat → Bool → Nat → Bool → Except String StageFn

/-- The closed enumeration of decoder block variants. -/
inductive DecoderVariant where
  | upsampling
  | transpose
deriving Repr, DecidableEq

/-- The decoder block factory selected by each variant, adapted to the
common `DecoderBlock` shape (the upsampling factory can fail, its wrapper
cannot; the transpose factory cannot fail, its wrapper can). -/
def DecoderVariant.block (fmt : String) : DecoderVariant → DecoderBlock
  | .upsampling => fun filters stage drop_rate use_groupnorm groupnorm_groups use_batchnorm =>
      match DecoderUpsamplingX2Block fmt filters stage drop_rate use_groupnorm groupnorm_groups use_batchnorm with
      | .error m => .error m
      | .ok w => .ok (fun x skip g => .ok (w x skip g))
  | .transpose => fun filters stage drop_rate use_groupnorm groupnorm_groups use_batchnorm =>
      .ok (DecoderTransposeX2Block fmt filters stage drop_rate use_groupnorm groupnorm_groups use_batchnorm)

/-- `Unet` lines 271-277: resolution of `decoder_block_type` from the
closed enumeration, any other string being a `ValueError`. -/
def decoderBlockOfType (decoder_block_type : String) : Except String DecoderVariant :=
  if decoder_block_type = "upsampling" then .ok .upsampling
  else if decoder_block_type = "transpose" then .ok .transpose
  else .error ("Decoder block type should be in (\"upsampling\", \"transpose\"). Got: " ++ decoder_block_type)

/-- The backbone as read by `build_unet`: its input and output tensors, a
resolver from skip-connection descriptor (layer name or index) to the
corresponding layer output, and whether its terminal layer is a
`MaxPooling2D` (line 171). -/
structure Backbone where
  input_ : Tensor
  output : Tensor
  resolve : String ⊕ Int → Tensor
  lastLayerIsMaxPool : Bool

/-- The decoder stage loop of `build_unet` (lines 180-190): for each stage
`i`, bind `skip := skips[i]` when `i < len(skips)`, look up
`decoder_filters[i]` (an `IndexError` when out of range), build the block
(passing the group-norm arguments only on the group-norm path, otherwise
the Python defaults `use_groupnorm=False, groupnorm_groups=2`), and apply
it to the running tensor. -/
def runStages (decoder_block : DecoderBlock) (skips : List Tensor) (decoder_filters : List Nat)
    (use_batchnorm use_groupnorm : Bool) (groupnorm_groups : Nat) (drop_rate : Option Nat) :
    Nat → Nat → List Node → Tensor → Except (String × List Node) (List Node × Tensor)
  | _, 0, g, x => .ok (g, x)
  | i, n + 1, g, x =>
    let skip := skips[i]?
    match decoder_filters[i]? with
    | none => .error ("IndexError: tuple index out of range", g)
    | some f =>
      let fac :=
        if use_groupnorm then
          decoder_block f i drop_rate use_groupnorm groupnorm_groups use_batchnorm
        else
          decoder_block f i drop_rate false 2 use_batchnorm
      match fac with
      | .error m => .error (m, g)
      | .ok blk =>
        match blk x skip g with
        | .error e => .error e
        | .ok (g2, x2) =>
          runStages decoder_block skips decoder_filters use_batchnorm use_groupnorm groupnorm_groups drop_rate
            (i + 1) n g2 x2

/-- The finished model: input tensor, created nodes in creation order, and
output tensor. -/
structure UModel where
  input_ : Tensor
  nodes : List Node
  output : Tensor
deriving Repr, DecidableEq

/-- `build_unet` from `unet.py` (lines 147-206): normalization-exclusivity
check, skip resolution, conditional center block (two 512-channel conv
blocks when the backbone ends in max pooling), the decoder stage loop, and
the classification head (3x3 conv to `classes` channels named `final_conv`
followed by the final activation). -/
def build_unet (fmt : String) (backbone : Backbone) (decoder_block : DecoderBlock)
    (skip_connection_layers : List (String ⊕ Int))
    (decoder_filters : List Nat) (n_upsample_blocks classes : Nat) (activation : String)
    (use_batchnorm use_groupnorm : Bool) (groupnorm_groups : Nat) (drop_rate : Option Nat) :
    Except (String × List Node) UModel :=
  if use_batchnorm && use_groupnorm then
    Except.error ("Cannot use both BatchNorm and GroupNorm", [])
  else
    let input_ := backbone.input_
    let x := backbone.output
    let skips := skip_connection_layers.map backbone.resolve
    let gx : List Node × Tensor :=
      if backbone.lastLayerIsMaxPool then
        if use_groupnorm then
          let gx1 := Conv3x3GnReLU fmt 512 use_groupnorm groupnorm_groups drop_rate "center_block1" x []
          Conv3x3GnReLU fmt 512 use_groupnorm groupnorm_groups drop_rate "center_block2" gx1.2 gx1.1
        else
          let gx1 := Conv3x3BnReLU fmt 512 use_batchnorm drop_rate "center_block1" x []
          Conv3x3BnReLU fmt 512 use_batchnorm drop_rate "center_block2" gx1.2 gx1.1
      else ([], x)
    match runStages decoder_block skips decoder_filters use_batchnorm use_groupnorm groupnorm_groups drop_rate
            0 n_upsample_blocks gx.1 gx.2 with
    | .error e => .error e
    | .ok (g, x2) =>
      let g := g ++ [Node.conv2D classes 3 3 "same" true "glorot_uniform" "final_conv"]
      let g := g ++ [Node.activationLayer activation activation]
      .ok ⟨input_, g, ⟨x2.h, x2.w, classes⟩⟩

/-- The external backbone registry as consumed by `Unet`:
`Backbones.get_backbone` and `Backbones.get_feature_layers`. -/
structure Registry where
  get_backbone : String → Backbone
  get_feature_layers : String → Nat → List (String ⊕ Int)

/-- `Unet` from `unet.py` (lines 213-326), restricted to graph topology:
the fail-fast normalization-exclusivity check (line 264), decoder block
type resolution (lines 271-277), backbone retrieval, resolution of the
`encoder_features='default'` sentinel to the registry's default four
feature layers (lines 301-302, embedded as `encoder_features = none`),
and delegation to `build_unet` with `n_upsample_blocks =
len(decoder_filters)` (line 311). -/
def Unet (fmt : String) (registry : Registry) (backbone_name : String)
    (classes : Nat) (activation : String)
    (encoder_features : Option (List (String ⊕ Int)))
    (decoder_block_type : String) (decoder_filters : List Nat)
    (decoder_use_batchnorm decoder_use_groupnorm : Bool)
    (decoder_groupnorm_groups : Nat) (decoder_drop_rate : Option Nat) :
    Except (String × List Node) UModel :=
  if decoder_use_batchnorm && decoder_use_groupnorm then
    Except.error ("Cannot use both BatchNorm and GroupNorm", [])
  else
    match decoderBlockOfType decoder_block_type with
    | .error m => .error (m, [])
    | .ok variant =>
      let backbone := registry.get_backbone backbone_name
      let ef :=
        match encoder_features with
        | none => registry.get_feature_layers backbone_name 4
        | some l => l
      build_unet fmt backbone (variant.block fmt) ef decoder_filters decoder_filters.length
        classes activation decoder_use_batchnorm decoder_use_groupnorm decoder_groupnorm_groups
        decoder_drop_rate

/-!  Closed forms for the node sequences each component creates, used to
state and prove the graph-level properties. -/

/-- Closed form: the node sequence created by one application of the
upsampling decoder stage block at stage `stage`. -/
def upStage1 (fmt : String) (filters stage : Nat) (dr : Option Nat) (gn : Bool) (gg : Nat)
    (bn : Bool) (hasSkip : Bool) : List Node :=
  [Node.upSampling2D 2 ("decoder_stage" ++ toString stage ++ "_upsampling")]
    ++ (if hasSkip then [Node.concatenate (axisOf fmt) ("decoder_stage" ++ toString stage ++ "_concat")] else [])
    ++ (if gn then
          conv2dGnNodes fmt filters 3 "relu" "he_uniform" "same" gn gg ("decoder_stage" ++ toString stage ++ "a") dr
            ++ conv2dGnNodes fmt filters 3 "relu" "he_uniform" "same" gn gg ("decoder_stage" ++ toString stage ++ "b") dr
        else
          conv2dBnNodes fmt filters 3 "relu" "he_uniform" "same" bn ("decoder_stage" ++ toString stage ++ "a") dr
            ++ conv2dBnNodes fmt filters 3 "relu" "he_uniform" "same" bn ("decoder_stage" ++ toString stage ++ "b") dr)

/-- Closed form: the node sequence created by one application of the
transpose decoder stage block at stage `stage` (valid configurations). -/
def trStage1 (fmt : String) (filters stage : Nat) (dr : Option Nat) (gn : Bool) (gg : Nat)
    (bn : Bool) (hasSkip : Bool) : List Node :=
  [Node.conv2DTranspose filters 4 4 2 2 "same" (!(bn || gn)) ("decoder_stage" ++ toString stage ++ "a_transpose")]
    ++ (if bn then [Node.batchNormalization (axisOf fmt) ("decoder_stage" ++ toString stage ++ "a_bn")] else [])
    ++ (if gn then [Node.groupNormalization gg (axisOf fmt) ("decoder_state" ++ toString stage ++ "a_gn")] else [])
    ++ [Node.activationLayer "relu" ("decoder_stage" ++ toString stage ++ "a_relu")]
    ++ (if hasSkip then [Node.concatenate (axisOf fmt) ("decoder_stage" ++ toString stage ++ "_concat")] else [])
    ++ (if gn then
          conv2dGnNodes fmt filters 3 "relu" "he_uniform" "same" gn gg ("decoder_stage" ++ toString stage ++ "b") dr
        else
          conv2dBnNodes fmt filters 3 "relu" "he_uniform" "same" bn ("decoder_stage" ++ toString stage ++ "b") dr)

/-- The per-stage closed form of each decoder block variant. -/
def DecoderVariant.stage1 (fmt : String) : DecoderVariant → Nat → Nat → Option Nat → Bool → Nat → Bool → Bool → List Node
  | .upsampling => fun filters stage dr gn gg bn hasSkip => upStage1 fmt filters stage dr gn gg bn hasSkip
  | .transpose => fun filters stage dr gn gg bn hasSkip => trStage1 fmt filters stage dr gn gg bn hasSkip

/-- Closed form: the center block nodes (two chained 512-channel conv
blocks, `build_unet` lines 171-177). -/
def centerNodes (fmt : String) (bn gn : Bool) (gg : Nat) (dr : Option Nat) : List Node :=
  if gn then
    conv2dGnNodes fmt 512 3 "relu" "he_uniform" "same" gn gg "center_block1" dr
      ++ conv2dGnNodes fmt 512 3 "relu" "he_uniform" "same" gn gg "center_block2" dr
  else
    conv2dBnNodes fmt 512 3 "relu" "he_uniform" "same" bn "center_block1" dr
      ++ conv2dBnNodes fmt 512 3 "relu" "he_uniform" "same" bn "center_block2" dr

/-- The tensor entering the decoder stage loop: the backbone output, its
channels replaced by 512 when the center block fired. -/
def centerOut (b : Backbone) : Tensor :=
  if b.lastLayerIsMaxPool then ⟨b.output.h, b.output.w, 512⟩ else b.output

/-- Closed form: the classification head (`build_unet` lines 193-201). -/
def headNodes (classes : Nat) (activation : String) : List Node :=
  [Node.conv2D classes 3 3 "same" true "glorot_uniform" "final_conv",
   Node.activationLayer activation activation]

/-- The running tensor after stages `i, i+1, ..., i+n-1`: each stage
doubles the spatial size and sets the channel count to its filter count
(identically for both block variants). -/
def stagesTensor (filters : List Nat) : Nat → Nat → Tensor → Tensor
  | _, 0, x => x
  | i, n + 1, x => stagesTensor filters (i + 1) n ⟨x.h * 2, x.w * 2, filters.getD i 0⟩

/-- The full stage-loop node list: stages `i, ..., i+n-1`, stage `j`
receiving a skip exactly when `j < skipsLen`. -/
def stagesNodes (fmt : String) (v : DecoderVariant) (skipsLen : Nat) (filters : List Nat)
    (bn gn : Bool) (gg : Nat) (dr : Option Nat) (i n : Nat) : List Node :=
  ((List.range' i n).map (fun j =>
    v.stage1 fmt (filters.getD j 0) j dr gn gg bn (decide (j < skipsLen)))).flatten

/-- Whether a node is a concatenation (skip-fusion) node. -/
def isConcatNode : Node → Bool
  | .concatenate _ _ => true
  | _ => false

/-- Whether a node list contains a skip-fusion node. -/
def hasConcat (l : List Node) : Bool := l.any isConcatNode

/-- Whether a node is a center-block convolution: a 512-filter `Conv2D`
named `center_block1_conv` or `center_block2_conv`. -/
def isCenterConv : Node → Bool
  | .conv2D f _ _ _ _ _ n => f == 512 && (n == "center_block1_conv" || n == "center_block2_conv")
  | _ => false

/-- The skip-connection descriptors actually passed to `build_unet` by
`Unet`: the registry's default four feature layers when the caller passed
the `default` sentinel (embedded as `none`), the given list otherwise. -/
def resolveFeatures (reg : Registry) (bname : String) (ef : Option (List (String ⊕ Int))) :
    List (String ⊕ Int) :=
  match ef with
  | none => reg.get_feature_layers bname 4
  | some l => l

/-- A concrete backbone (terminal layer not a pooling layer), used to
instantiate the claim theorems. -/
def testBackbone : Backbone :=
  ⟨⟨224, 224, 3⟩, ⟨7, 7, 512⟩, fun _ => ⟨14, 14, 256⟩, false⟩

/-- A concrete backbone whose terminal layer is a max-pooling layer. -/
def testBackbonePool : Backbone :=
  ⟨⟨224, 224, 3⟩, ⟨7, 7, 512⟩, fun _ => ⟨14, 14, 256⟩, true⟩

/-- A concrete registry whose feature-layer lists have exactly the
requested length, used to instantiate the claim theorems. -/
def testRegistry : Registry :=
  ⟨fun _ => testBackbone, fun _ n => (List.range n).map (fun j => Sum.inr (Int.ofNat j))⟩

/-- A concrete registry built over the pooling-terminated backbone. -/
def testRegistryPool : Registry :=
  ⟨fun _ => testBackbonePool, fun _ n => (List.range n).map (fun j => Sum.inr (Int.ofNat j))⟩

/-- A concrete skip-descriptor list of length 3. -/
def testSkips : List (String ⊕ Int) :=
  [Sum.inl "block1", Sum.inl "block2", Sum.inl "block3"]

/-- The upsampling factory, on a valid configuration, returns the wrapper
whose effect is the closed-form node sequence `upStage1`. -/
theorem up_factory_ok (fmt : String) (f i : Nat) (dr : Option Nat) (gn : Bool) (gg : Nat) (bn : Bool)
    (h : (bn && gn) = false) :
    DecoderUpsamplingX2Block fmt f i dr gn gg bn =
      Except.ok (fun x skip g =>
        (g ++ upStage1 fmt f i dr gn gg bn skip.isSome, ⟨x.h * 2, x.w * 2, f⟩)) := by
  unfold DecoderUpsamplingX2Block
  rw [h]
  simp only [Bool.false_eq_true, if_false]
  congr 1
  funext x skip g
  cases skip with
  | none =>
    cases gn with
    | false => simp [upStage1, Conv3x3BnReLU, Conv2dBn, List.append_assoc]
    | true => simp [upStage1, Conv3x3GnReLU, Conv2dGn, List.append_assoc]
  | some s =>
    cases gn with
    | false => simp [upStage1, Conv3x3BnReLU, Conv2dBn, List.append_assoc]
    | true => simp [upStage1, Conv3x3GnReLU, Conv2dGn, List.append_assoc]

/-- The transpose stage block, on a valid configuration, creates exactly
the closed-form node sequence `trStage1`. -/
theorem tr_block_apply (fmt : String) (f i : Nat) (dr : Option Nat) (gn : Bool) (gg : Nat) (bn : Bool)
    (x : Tensor) (skip : Option Tensor) (g : List Node) (h : (bn && gn) = false) :
    DecoderTransposeX2Block fmt f i dr gn gg bn x skip g =
      Except.ok (g ++ trStage1 fmt f i dr gn gg bn skip.isSome, ⟨x.h * 2, x.w * 2, f⟩) := by
  unfold DecoderTransposeX2Block
  cases skip with
  | none =>
    cases gn with
    | false =>
      cases bn with
      | false => simp [trStage1, Conv3x3BnReLU, Conv2dBn, List.append_assoc]
      | true => simp [trStage1, Conv3x3BnReLU, Conv2dBn, List.append_assoc]
    | true =>
      cases bn with
      | false => simp [trStage1, Conv3x3GnReLU, Conv2dGn, List.append_assoc]
      | true => simp at h
  | some s =>
    cases gn with
    | false =>
      cases bn with
      | false => simp [trStage1, Conv3x3BnReLU, Conv2dBn, List.append_assoc]
      | true => simp [trStage1, Conv3x3BnReLU, Conv2dBn, List.append_assoc]
    | true =>
      cases bn with
      | false => simp [trStage1, Conv3x3GnReLU, Conv2dGn, List.append_assoc]
      | true => simp at h

/-- The decoder stage loop, on a valid configuration with all filter
look-ups in bounds, succeeds and creates exactly the closed-form node
sequence `stagesNodes`, the running tensor evolving by `stagesTensor`. -/
theorem runStages_variant (fmt : String) (v : DecoderVariant) (skips : List Tensor)
    (filters : List Nat) (bn gn : Bool) (gg : Nat) (dr : Option Nat)
    (h : (bn && gn) = false) :
    ∀ (n i : Nat) (g : List Node) (x : Tensor), i + n ≤ filters.length →
      runStages (v.block fmt) skips filters bn gn gg dr i n g x =
        Except.ok (g ++ stagesNodes fmt v skips.length filters bn gn gg dr i n,
                   stagesTensor filters i n x) := by
  intro n
  induction n with
  | zero =>
    intro i g x _
    simp [runStages, stagesNodes, stagesTensor]
  | succ n ih =>
    intro i g x hle
    have hi : i < filters.length := by omega
    have hf : filters[i]? = some (filters.getD i 0) := by
      simp [List.getD, List.getElem?_eq_getElem hi]
    have hsome : (skips[i]?).isSome = decide (i < skips.length) := by
      by_cases hk : i < skips.length
      · simp [List.getElem?_eq_getElem hk, hk]
      · simp [List.getElem?_eq_none (by omega : skips.length ≤ i), hk]
    have hstep : stagesNodes fmt v skips.length filters bn gn gg dr i (n + 1) =
        v.stage1 fmt (filters.getD i 0) i dr gn gg bn (decide (i < skips.length))
          ++ stagesNodes fmt v skips.length filters bn gn gg dr (i + 1) n := by
      simp [stagesNodes, List.range'_succ]
    have hT : stagesTensor filters i (n + 1) x =
        stagesTensor filters (i + 1) n ⟨x.h * 2, x.w * 2, filters.getD i 0⟩ := rfl
    have hle2 : (i + 1) + n ≤ filters.length := by omega
    cases v with
    | upsampling =>
      cases gn with
      | false =>
        have hfac : DecoderVariant.block fmt DecoderVariant.upsampling (filters.getD i 0) i dr false 2 bn =
            Except.ok (fun x skip g => Except.ok
              (g ++ upStage1 fmt (filters.getD i 0) i dr false 2 bn skip.isSome,
               ⟨x.h * 2, x.w * 2, filters.getD i 0⟩)) := by
          simp only [DecoderVariant.block]
          rw [up_factory_ok fmt (filters.getD i 0) i dr false 2 bn (by simp)]
        rw [runStages, hf]
        simp only [Bool.false_eq_true, if_false, hfac, hsome]
        rw [ih (i + 1) _ _ hle2, hstep, hT]
        simp [DecoderVariant.stage1, upStage1, List.append_assoc]
      | true =>
        have hbn : bn = false := by
          cases bn
          · rfl
          · simp at h
        subst hbn
        have hfac : DecoderVariant.block fmt DecoderVariant.upsampling (filters.getD i 0) i dr true gg false =
            Except.ok (fun x skip g => Except.ok
              (g ++ upStage1 fmt (filters.getD i 0) i dr true gg false skip.isSome,
               ⟨x.h * 2, x.w * 2, filters.getD i 0⟩)) := by
          simp only [DecoderVariant.block]
          rw [up_factory_ok fmt (filters.getD i 0) i dr true gg false (by simp)]
        rw [runStages, hf]
        simp only [if_true, hfac, hsome]
        rw [ih (i + 1) _ _ hle2, hstep, hT]
        simp [DecoderVariant.stage1, upStage1, List.append_assoc]
    | transpose =>
      cases gn with
      | false =>
        have hfac : DecoderVariant.block fmt DecoderVariant.transpose (filters.getD i 0) i dr false 2 bn =
            Except.ok (DecoderTransposeX2Block fmt (filters.getD i 0) i dr false 2 bn) := rfl
        rw [runStages, hf]
        simp only [Bool.false_eq_true, if_false, hfac,
          tr_block_apply fmt (filters.getD i 0) i dr false 2 bn x skips[i]? g (by simp), hsome]
        rw [ih (i + 1) _ _ hle2, hstep, hT]
        simp [DecoderVariant.stage1, trStage1, List.append_assoc]
      | true =>
        have hbn : bn = false := by
          cases bn
          · rfl
          · simp at h
        subst hbn
        have hfac : DecoderVariant.block fmt DecoderVariant.transpose (filters.getD i 0) i dr true gg false =
            Except.ok (DecoderTransposeX2Block fmt (filters.getD i 0) i dr true gg false) := rfl
        rw [runStages, hf]
        simp only [if_true, hfac,
          tr_block_apply fmt (filters.getD i 0) i dr true gg false x skips[i]? g (by simp), hsome]
        rw [ih (i + 1) _ _ hle2, hstep, hT]
        simp [DecoderVariant.stage1, trStage1, List.append_assoc]

/-- Full characterization of `build_unet` on a valid configuration: it
succeeds, and the created node list is the optional center block, the
stage-loop nodes, then the classification head; the output tensor has the
stage-loop spatial size and `classes` channels. -/
theorem build_unet_eq (fmt : String) (b : Backbone) (v : DecoderVariant)
    (scl : List (String ⊕ Int)) (filters : List Nat) (n classes : Nat) (act : String)
    (bn gn : Bool) (gg : Nat) (dr : Option Nat)
    (h : (bn && gn) = false) (hn : n ≤ filters.length) :
    build_unet fmt b (v.block fmt) scl filters n classes act bn gn gg dr =
      Except.ok ⟨b.input_,
        (if b.lastLayerIsMaxPool then centerNodes fmt bn gn gg dr else [])
          ++ stagesNodes fmt v scl.length filters bn gn gg dr 0 n
          ++ headNodes classes act,
        ⟨(stagesTensor filters 0 n (centerOut b)).h,
         (stagesTensor filters 0 n (centerOut b)).w, classes⟩⟩ := by
  have hrs := runStages_variant fmt v (scl.map b.resolve) filters bn gn gg dr h n
  rw [List.length_map] at hrs
  have hrs0 : ∀ (g : List Node) (x : Tensor),
      runStages (v.block fmt) (scl.map b.resolve) filters bn gn gg dr 0 n g x =
        Except.ok (g ++ stagesNodes fmt v scl.length filters bn gn gg dr 0 n,
                   stagesTensor filters 0 n x) :=
    fun g x => hrs 0 g x (by omega)
  unfold build_unet
  rw [h]
  simp only [Bool.false_eq_true, if_false]
  cases hmp : b.lastLayerIsMaxPool with
  | false =>
    simp only [Bool.false_eq_true, if_false, hrs0]
    simp [centerOut, hmp, headNodes, List.append_assoc]
  | true =>
    cases gn with
    | false =>
      simp only [Bool.false_eq_true, if_false, if_true, Conv3x3BnReLU, Conv2dBn, hrs0]
      simp [centerOut, hmp, centerNodes, headNodes, List.append_assoc]
    | true =>
      simp only [if_true, Conv3x3GnReLU, Conv2dGn, hrs0]
      simp [centerOut, hmp, centerNodes, headNodes, List.append_assoc]

/-- `Unet`, on a valid configuration whose decoder block type resolves,
delegates to `build_unet` with the resolved variant, the resolved skip
descriptors, and `n_upsample_blocks = decoder_filters.length`. -/
theorem Unet_eq (fmt : String) (reg : Registry) (bname : String) (classes : Nat) (act : String)
    (ef : Option (List (String ⊕ Int))) (t : String) (v : DecoderVariant) (filters : List Nat)
    (bn gn : Bool) (gg : Nat) (dr : Option Nat)
    (h : (bn && gn) = false) (hv : decoderBlockOfType t = .ok v) :
    Unet fmt reg bname classes act ef t filters bn gn gg dr =
      build_unet fmt (reg.get_backbone bname) (v.block fmt)
        (resolveFeatures reg bname ef)
        filters filters.length classes act bn gn gg dr := by
  unfold Unet resolveFeatures
  rw [h]
  simp only [Bool.false_eq_true, if_false, hv]

/-- A conv block contains no concatenation node. -/
theorem hasConcat_convBn (fmt : String) (f k : Nat) (a ki p : String) (bnn : Bool)
    (nm : String) (dr : Option Nat) :
    hasConcat (conv2dBnNodes fmt f k a ki p bnn nm dr) = false := by
  cases bnn <;> cases dr <;> rfl

/-- A group-norm conv block contains no concatenation node. -/
theorem hasConcat_convGn (fmt : String) (f k : Nat) (a ki p : String) (gnn : Bool) (gg : Nat)
    (nm : String) (dr : Option Nat) :
    hasConcat (conv2dGnNodes fmt f k a ki p gnn gg nm dr) = false := by
  cases gnn <;> cases dr <;> rfl

/-- A decoder stage's node sequence contains a concatenation node exactly
when the stage was invoked with a bound skip. -/
theorem hasConcat_stage1 (fmt : String) (v : DecoderVariant) (f i : Nat) (dr : Option Nat)
    (gn : Bool) (gg : Nat) (bn : Bool) (hs : Bool) :
    hasConcat (v.stage1 fmt f i dr gn gg bn hs) = hs := by
  cases v <;> cases hs <;> cases gn <;> cases bn <;> cases dr <;> rfl

/-- A string of the shape `"decoder_stage" ++ _ ++ _ ++ _` is never equal
to a string starting with the character c (first characters differ). -/
theorem dstage_ne (s t u c : String) (hc : c.data.head? = some 'c') :
    ((("decoder_stage" ++ s) ++ t) ++ u) ≠ c := by
  intro he
  have h1 : ((("decoder_stage" ++ s) ++ t) ++ u).data.head? = some 'd' := rfl
  rw [he, hc] at h1
  exact absurd (Option.some.inj h1) (by decide)

/-- Unfolding: the stage-loop node list for zero stages. -/
theorem stagesNodes_zero (fmt : String) (v : DecoderVariant) (K : Nat) (filters : List Nat)
    (bn gn : Bool) (gg : Nat) (dr : Option Nat) (i : Nat) :
    stagesNodes fmt v K filters bn gn gg dr i 0 = [] := by
  simp [stagesNodes]

/-- Unfolding: the stage-loop node list for `n+1` stages is stage `i`
followed by stages `i+1, ..., i+n`. -/
theorem stagesNodes_succ (fmt : String) (v : DecoderVariant) (K : Nat) (filters : List Nat)
    (bn gn : Bool) (gg : Nat) (dr : Option Nat) (i n : Nat) :
    stagesNodes fmt v K filters bn gn gg dr i (n + 1) =
      v.stage1 fmt (filters.getD i 0) i dr gn gg bn (decide (i < K))
        ++ stagesNodes fmt v K filters bn gn gg dr (i + 1) n := by
  simp [stagesNodes, List.range'_succ]

/-- No node of a decoder stage is a center-block convolution (stage node
names all start with the letter d). -/
theorem countP_center_stage1 (fmt : String) (v : DecoderVariant) (f i : Nat) (dr : Option Nat)
    (gn : Bool) (gg : Nat) (bn : Bool) (hs : Bool) :
    List.countP isCenterConv (v.stage1 fmt f i dr gn gg bn hs) = 0 := by
  have hA : ∀ (t u : String),
      (((("decoder_stage" ++ toString i) ++ t) ++ u) == "center_block1_conv") = false :=
    fun t u => beq_eq_false_iff_ne.mpr (dstage_ne (toString i) t u _ rfl)
  have hB : ∀ (t u : String),
      (((("decoder_stage" ++ toString i) ++ t) ++ u) == "center_block2_conv") = false :=
    fun t u => beq_eq_false_iff_ne.mpr (dstage_ne (toString i) t u _ rfl)
  cases v <;> cases hs <;> cases gn <;> cases bn <;> cases dr <;>
    simp [DecoderVariant.stage1, upStage1, trStage1, conv2dBnNodes, conv2dGnNodes,
      isCenterConv, List.countP_append, List.countP_cons, List.countP_nil, hA, hB]

/-- No node of the whole stage loop is a center-block convolution. -/
theorem countP_center_stagesNodes (fmt : String) (v : DecoderVariant) (K : Nat) (filters : List Nat)
    (bn gn : Bool) (gg : Nat) (dr : Option Nat) :
    ∀ (n i : Nat), List.countP isCenterConv (stagesNodes fmt v K filters bn gn gg dr i n) = 0 := by
  intro n
  induction n with
  | zero => intro i; simp [stagesNodes_zero]
  | succ n ih =>
    intro i
    rw [stagesNodes_succ, List.countP_append, countP_center_stage1, ih]

/-- No node of the classification head is a center-block convolution. -/
theorem countP_center_headNodes (classes : Nat) (act : String) :
    List.countP isCenterConv (headNodes classes act) = 0 := by
  simp [headNodes, isCenterConv, List.countP_cons, List.countP_nil]

/-- The center block contains exactly two center-block convolutions (at
512 filters, named center_block1/center_block2). -/
theorem countP_center_centerNodes (fmt : String) (bn gn : Bool) (gg : Nat) (dr : Option Nat) :
    List.countP isCenterConv (centerNodes fmt bn gn gg dr) = 2 := by
  cases gn <;> cases bn <;> cases dr <;> rfl

/-- `Unet` with an explicit encoder-feature list. -/
theorem Unet_eq_some (fmt : String) (reg : Registry) (bname : String) (classes : Nat) (act : String)
    (scl : List (String ⊕ Int)) (t : String) (v : DecoderVariant) (filters : List Nat)
    (bn gn : Bool) (gg : Nat) (dr : Option Nat)
    (h : (bn && gn) = false) (hv : decoderBlockOfType t = .ok v) :
    Unet fmt reg bname classes act (some scl) t filters bn gn gg dr =
      build_unet fmt (reg.get_backbone bname) (v.block fmt) scl
        filters filters.length classes act bn gn gg dr :=
  Unet_eq fmt reg bname classes act (some scl) t v filters bn gn gg dr h hv

/-- `Unet` with the `default` encoder-features sentinel: the skip list is
the registry's default feature layers, requested with `n = 4`. -/
theorem Unet_eq_none (fmt : String) (reg : Registry) (bname : String) (classes : Nat) (act : String)
    (t : String) (v : DecoderVariant) (filters : List Nat)
    (bn gn : Bool) (gg : Nat) (dr : Option Nat)
    (h : (bn && gn) = false) (hv : decoderBlockOfType t = .ok v) :
    Unet fmt reg bname classes act none t filters bn gn gg dr =
      build_unet fmt (reg.get_backbone bname) (v.block fmt) (reg.get_feature_layers bname 4)
        filters filters.length classes act bn gn gg dr :=
  Unet_eq fmt reg bname classes act none t v filters bn gn gg dr h hv

/-- C1 counterexample: applying the transpose decoder stage block with
both batch and group normalization requested does not fail before any
graph node is created — the error is raised only after the
transposed-convolution node has been created, as witnessed by the
non-empty created-node payload of the error. -/
theorem C1_counterexample :
    DecoderTransposeX2Block "channels_last" 16 0 none true 2 true ⟨4, 4, 8⟩ none [] =
      Except.error ("Cannot use both BatchNorm and GroupNorm",
        [Node.conv2DTranspose 16 4 4 2 2 "same" false "decoder_stage0a_transpose"]) ∧
    ([Node.conv2DTranspose 16 4 4 2 2 "same" false "decoder_stage0a_transpose"] : List Node) ≠ [] :=
  ⟨rfl, List.cons_ne_nil _ _⟩

/-- C1 (amended): requesting both batch and group normalization raises the
configuration error before any graph node is created at the `Unet` entry
point, at `build_unet`, and at `DecoderUpsamplingX2Block` construction
(the error payload carries no created node); the transpose block instead
raises only when the stage is applied, after its transposed-convolution
node has been created. -/
theorem C1_both_norms (fmt : String) (reg : Registry) (bname : String) (classes : Nat)
    (act : String) (ef : Option (List (String ⊕ Int))) (t : String) (filters : List Nat)
    (gg : Nat) (dr : Option Nat) (b : Backbone) (blk : DecoderBlock)
    (scl : List (String ⊕ Int)) (n nclasses f i : Nat) (x : Tensor) (skip : Option Tensor)
    (g : List Node) :
    Unet fmt reg bname classes act ef t filters true true gg dr =
      Except.error ("Cannot use both BatchNorm and GroupNorm", []) ∧
    build_unet fmt b blk scl filters n nclasses act true true gg dr =
      Except.error ("Cannot use both BatchNorm and GroupNorm", []) ∧
    DecoderUpsamplingX2Block fmt f i dr true gg true =
      Except.error "Cannot use both BatchNorm and GroupNorm" ∧
    DecoderTransposeX2Block fmt f i dr true gg true x skip g =
      Except.error ("Cannot use both BatchNorm and GroupNorm",
        g ++ [Node.conv2DTranspose f 4 4 2 2 "same" false
                ("decoder_stage" ++ toString i ++ "a_transpose")]) := by
  refine ⟨?_, ?_, ?_, ?_⟩
  · simp [Unet]
  · simp [build_unet]
  · simp [DecoderUpsamplingX2Block]
  · simp [DecoderTransposeX2Block]

/-- C2: for `decoder_filters` of length N and a resolved skip list of
length K ≤ N, `build_unet` succeeds, its stage loop runs stages 0..N−1,
and stage i's node sequence contains a skip-concatenation node exactly
when i < K (stage i is invoked with a bound skip iff i < K). -/
theorem C2_skip_stages (fmt : String) (b : Backbone) (v : DecoderVariant)
    (scl : List (String ⊕ Int)) (filters : List Nat) (classes : Nat) (act : String)
    (bn gn : Bool) (gg : Nat) (dr : Option Nat)
    (h : (bn && gn) = false) (_hK : scl.length ≤ filters.length) :
    ∃ m : UModel,
      build_unet fmt b (v.block fmt) scl filters filters.length classes act bn gn gg dr =
        Except.ok m ∧
      m.nodes = (if b.lastLayerIsMaxPool then centerNodes fmt bn gn gg dr else [])
        ++ ((List.range' 0 filters.length).map (fun i =>
              v.stage1 fmt (filters.getD i 0) i dr gn gg bn (decide (i < scl.length)))).flatten
        ++ headNodes classes act ∧
      ∀ i, i < filters.length →
        hasConcat (v.stage1 fmt (filters.getD i 0) i dr gn gg bn (decide (i < scl.length)))
          = decide (i < scl.length) := by
  refine ⟨_, build_unet_eq fmt b v scl filters filters.length classes act bn gn gg dr h (le_refl _),
    rfl, ?_⟩
  intro i _
  exact hasConcat_stage1 fmt v (filters.getD i 0) i dr gn gg bn (decide (i < scl.length))

/-- C2 witness: a concrete valid configuration with N = 5, K = 3. -/
theorem C2_skip_stages_witness :
    ((true && false) = false ∧ testSkips.length ≤ ([256, 128, 64, 32, 16] : List Nat).length) ∧
    (∃ m : UModel,
      build_unet "channels_last" testBackbone (DecoderVariant.upsampling.block "channels_last")
        testSkips [256, 128, 64, 32, 16] ([256, 128, 64, 32, 16] : List Nat).length 1 "sigmoid"
        true false 2 none = Except.ok m ∧
      m.nodes = (if testBackbone.lastLayerIsMaxPool then centerNodes "channels_last" true false 2 none else [])
        ++ ((List.range' 0 ([256, 128, 64, 32, 16] : List Nat).length).map (fun i =>
              DecoderVariant.upsampling.stage1 "channels_last" (([256, 128, 64, 32, 16] : List Nat).getD i 0)
                i none false 2 true (decide (i < testSkips.length)))).flatten
        ++ headNodes 1 "sigmoid" ∧
      ∀ i, i < ([256, 128, 64, 32, 16] : List Nat).length →
        hasConcat (DecoderVariant.upsampling.stage1 "channels_last"
            (([256, 128, 64, 32, 16] : List Nat).getD i 0) i none false 2 true
            (decide (i < testSkips.length)))
          = decide (i < testSkips.length)) :=
  ⟨⟨by decide, by decide⟩,
   C2_skip_stages "channels_last" testBackbone DecoderVariant.upsampling testSkips
     [256, 128, 64, 32, 16] 1 "sigmoid" true false 2 none (by decide) (by decide)⟩

/-- C3: `build_unet` succeeds on a valid configuration and its node list
starts with the center block — two chained 512-channel conv blocks —
exactly when the backbone's terminal layer is a spatial-pooling layer, the
whole graph containing exactly two center-block convolutions in that case
and none otherwise. -/
theorem C3_center_block (fmt : String) (b : Backbone) (v : DecoderVariant)
    (scl : List (String ⊕ Int)) (filters : List Nat) (n classes : Nat) (act : String)
    (bn gn : Bool) (gg : Nat) (dr : Option Nat)
    (h : (bn && gn) = false) (hn : n ≤ filters.length) :
    ∃ m : UModel,
      build_unet fmt b (v.block fmt) scl filters n classes act bn gn gg dr = Except.ok m ∧
      m.nodes = (if b.lastLayerIsMaxPool then centerNodes fmt bn gn gg dr else [])
        ++ stagesNodes fmt v scl.length filters bn gn gg dr 0 n
        ++ headNodes classes act ∧
      List.countP isCenterConv m.nodes = (if b.lastLayerIsMaxPool then 2 else 0) := by
  refine ⟨_, build_unet_eq fmt b v scl filters n classes act bn gn gg dr h hn, rfl, ?_⟩
  simp only [List.countP_append, countP_center_stagesNodes, countP_center_headNodes]
  cases b.lastLayerIsMaxPool with
  | false => simp
  | true => simp [countP_center_centerNodes]

/-- C3 witness: the pooling-terminated backbone yields exactly two
center-block convolutions. -/
theorem C3_center_block_witness :
    ((true && false) = false ∧ (5 : Nat) ≤ ([256, 128, 64, 32, 16] : List Nat).length) ∧
    (∃ m : UModel,
      build_unet "channels_last" testBackbonePool (DecoderVariant.upsampling.block "channels_last")
        testSkips [256, 128, 64, 32, 16] 5 1 "sigmoid" true false 2 none = Except.ok m ∧
      m.nodes = (if testBackbonePool.lastLayerIsMaxPool then centerNodes "channels_last" true false 2 none else [])
        ++ stagesNodes "channels_last" DecoderVariant.upsampling testSkips.length
            [256, 128, 64, 32, 16] true false 2 none 0 5
        ++ headNodes 1 "sigmoid" ∧
      List.countP isCenterConv m.nodes = (if testBackbonePool.lastLayerIsMaxPool then 2 else 0)) :=
  ⟨⟨by decide, by decide⟩,
   C3_center_block "channels_last" testBackbonePool DecoderVariant.upsampling testSkips
     [256, 128, 64, 32, 16] 5 1 "sigmoid" true false 2 none (by decide) (by decide)⟩

/-- C4: on a valid normalization configuration, the transpose decoder
stage block builds exactly the sequence `trStage1`: a stride-2 4×4
transposed convolution producing `filters` channels with bias disabled iff
batch or group normalization is active, then the requested normalization
node (if any), then a relu activation, then a channel-axis concatenation
exactly when a skip is bound, then exactly one conv block. -/
theorem C4_transpose_sequence (fmt : String) (f stage : Nat) (dr : Option Nat) (gn : Bool)
    (gg : Nat) (bn : Bool) (x : Tensor) (skip : Option Tensor) (g : List Node)
    (h : (bn && gn) = false) :
    DecoderTransposeX2Block fmt f stage dr gn gg bn x skip g =
      Except.ok (g ++ trStage1 fmt f stage dr gn gg bn skip.isSome, ⟨x.h * 2, x.w * 2, f⟩) :=
  tr_block_apply fmt f stage dr gn gg bn x skip g h

/-- C4 witness: a concrete transpose stage with batch normalization and a
bound skip. -/
theorem C4_transpose_sequence_witness :
    ((true && false) = false) ∧
    DecoderTransposeX2Block "channels_last" 64 1 none false 2 true ⟨8, 8, 128⟩
        (some ⟨16, 16, 96⟩) [] =
      Except.ok ([] ++ trStage1 "channels_last" 64 1 none false 2 true (some (⟨16, 16, 96⟩ : Tensor)).isSome,
        ⟨(⟨8, 8, 128⟩ : Tensor).h * 2, (⟨8, 8, 128⟩ : Tensor).w * 2, 64⟩) :=
  ⟨by decide,
   C4_transpose_sequence "channels_last" 64 1 none false 2 true ⟨8, 8, 128⟩
     (some ⟨16, 16, 96⟩) [] (by decide)⟩

/-- C5: with all other configuration fixed, building with the
`upsampling` and with the `transpose` decoder block type both succeed and
yield models with the same output tensor (same spatial shape and the same
channel count, namely `classes`) and the same input tensor: the two block
variants are drop-in interchangeable at the assembler level. -/
theorem C5_variants_same_shape (fmt : String) (reg : Registry) (bname : String) (classes : Nat)
    (act : String) (scl : List (String ⊕ Int)) (filters : List Nat)
    (bn gn : Bool) (gg : Nat) (dr : Option Nat)
    (h : (bn && gn) = false) :
    ∃ m1 m2 : UModel,
      Unet fmt reg bname classes act (some scl) "upsampling" filters bn gn gg dr = Except.ok m1 ∧
      Unet fmt reg bname classes act (some scl) "transpose" filters bn gn gg dr = Except.ok m2 ∧
      m1.output = m2.output ∧ m1.output.c = classes ∧ m1.input_ = m2.input_ :=
  ⟨_, _,
    (Unet_eq_some fmt reg bname classes act scl "upsampling" DecoderVariant.upsampling
        filters bn gn gg dr h rfl).trans
      (build_unet_eq fmt (reg.get_backbone bname) DecoderVariant.upsampling scl filters
        filters.length classes act bn gn gg dr h (le_refl _)),
    (Unet_eq_some fmt reg bname classes act scl "transpose" DecoderVariant.transpose
        filters bn gn gg dr h rfl).trans
      (build_unet_eq fmt (reg.get_backbone bname) DecoderVariant.transpose scl filters
        filters.length classes act bn gn gg dr h (le_refl _)),
    rfl, rfl, rfl⟩

/-- C5 witness: a concrete configuration built with both variants. -/
theorem C5_variants_same_shape_witness :
    ((true && false) = false) ∧
    (∃ m1 m2 : UModel,
      Unet "channels_last" testRegistry "vgg16" 3 "softmax" (some testSkips) "upsampling"
        [256, 128, 64, 32, 16] true false 2 none = Except.ok m1 ∧
      Unet "channels_last" testRegistry "vgg16" 3 "softmax" (some testSkips) "transpose"
        [256, 128, 64, 32, 16] true false 2 none = Except.ok m2 ∧
      m1.output = m2.output ∧ m1.output.c = 3 ∧ m1.input_ = m2.input_) :=
  ⟨by decide,
   C5_variants_same_shape "channels_last" testRegistry "vgg16" 3 "softmax" testSkips
     [256, 128, 64, 32, 16] true false 2 none (by decide)⟩

/-- C6: two graph constructions with the same configuration — even over
different backbones and registries, provided they agree on the only two
structural inputs the node list depends on (whether the terminal backbone
layer is a pooling layer, and the skip-list length) — produce identical
node lists and hence identical node-name sets: every node name is a pure
function of its role and stage index. -/
theorem C6_deterministic_names (fmt : String) (r1 r2 : Registry) (n1 n2 : String)
    (classes : Nat) (act : String) (scl1 scl2 : List (String ⊕ Int)) (t : String)
    (v : DecoderVariant) (filters : List Nat) (bn gn : Bool) (gg : Nat) (dr : Option Nat)
    (h : (bn && gn) = false) (hv : decoderBlockOfType t = .ok v)
    (hmp : (r1.get_backbone n1).lastLayerIsMaxPool = (r2.get_backbone n2).lastLayerIsMaxPool)
    (hlen : scl1.length = scl2.length) :
    ∃ m1 m2 : UModel,
      Unet fmt r1 n1 classes act (some scl1) t filters bn gn gg dr = Except.ok m1 ∧
      Unet fmt r2 n2 classes act (some scl2) t filters bn gn gg dr = Except.ok m2 ∧
      m1.nodes = m2.nodes ∧ m1.nodes.map Node.name = m2.nodes.map Node.name := by
  refine ⟨_, _,
    (Unet_eq_some fmt r1 n1 classes act scl1 t v filters bn gn gg dr h hv).trans
      (build_unet_eq fmt (r1.get_backbone n1) v scl1 filters filters.length classes act
        bn gn gg dr h (le_refl _)),
    (Unet_eq_some fmt r2 n2 classes act scl2 t v filters bn gn gg dr h hv).trans
      (build_unet_eq fmt (r2.get_backbone n2) v scl2 filters filters.length classes act
        bn gn gg dr h (le_refl _)),
    ?_, ?_⟩
  · rw [hmp, hlen]
  · rw [hmp, hlen]

/-- C6 witness: two different registries and skip lists agreeing only on
the pooling flag and the skip count give identical node lists. -/
theorem C6_deterministic_names_witness :
    ((true && false) = false ∧
     decoderBlockOfType "upsampling" = Except.ok DecoderVariant.upsampling ∧
     (testRegistry.get_backbone "vgg16").lastLayerIsMaxPool =
       (testRegistry.get_backbone "resnet34").lastLayerIsMaxPool ∧
     testSkips.length = ([Sum.inr 0, Sum.inr 1, Sum.inr 2] : List (String ⊕ Int)).length) ∧
    (∃ m1 m2 : UModel,
      Unet "channels_last" testRegistry "vgg16" 1 "sigmoid" (some testSkips) "upsampling"
        [256, 128, 64, 32, 16] true false 2 none = Except.ok m1 ∧
      Unet "channels_last" testRegistry "resnet34" 1 "sigmoid"
        (some [Sum.inr 0, Sum.inr 1, Sum.inr 2]) "upsampling"
        [256, 128, 64, 32, 16] true false 2 none = Except.ok m2 ∧
      m1.nodes = m2.nodes ∧ m1.nodes.map Node.name = m2.nodes.map Node.name) :=
  ⟨⟨by decide, rfl, rfl, rfl⟩,
   C6_deterministic_names "channels_last" testRegistry testRegistry "vgg16" "resnet34" 1 "sigmoid"
     testSkips [Sum.inr 0, Sum.inr 1, Sum.inr 2] "upsampling" DecoderVariant.upsampling
     [256, 128, 64, 32, 16] true false 2 none (by decide) rfl rfl rfl⟩

/-- C7: a `decoder_block_type` outside the closed enumeration makes `Unet`
fail with the configuration error (and no node created), while within the
enumeration `upsampling` selects the upsampling variant and `transpose`
the transpose variant, each fed to the assembler. -/
theorem C7_decoder_block_type (fmt : String) (reg : Registry) (bname : String) (classes : Nat)
    (act : String) (ef : Option (List (String ⊕ Int))) (filters : List Nat)
    (bn gn : Bool) (gg : Nat) (dr : Option Nat) (t : String)
    (h : (bn && gn) = false) (ht1 : t ≠ "upsampling") (ht2 : t ≠ "transpose") :
    Unet fmt reg bname classes act ef t filters bn gn gg dr =
      Except.error ("Decoder block type should be in (\"upsampling\", \"transpose\"). Got: " ++ t, []) ∧
    decoderBlockOfType "upsampling" = Except.ok DecoderVariant.upsampling ∧
    decoderBlockOfType "transpose" = Except.ok DecoderVariant.transpose ∧
    Unet fmt reg bname classes act ef "upsampling" filters bn gn gg dr =
      build_unet fmt (reg.get_backbone bname) (DecoderVariant.upsampling.block fmt)
        (resolveFeatures reg bname ef) filters filters.length classes act bn gn gg dr ∧
    Unet fmt reg bname classes act ef "transpose" filters bn gn gg dr =
      build_unet fmt (reg.get_backbone bname) (DecoderVariant.transpose.block fmt)
        (resolveFeatures reg bname ef) filters filters.length classes act bn gn gg dr := by
  refine ⟨?_, rfl, rfl,
    Unet_eq fmt reg bname classes act ef "upsampling" DecoderVariant.upsampling filters
      bn gn gg dr h rfl,
    Unet_eq fmt reg bname classes act ef "transpose" DecoderVariant.transpose filters
      bn gn gg dr h rfl⟩
  unfold Unet
  rw [h]
  simp only [Bool.false_eq_true, if_false]
  unfold decoderBlockOfType
  rw [if_neg ht1, if_neg ht2]

/-- C7 witness: the unknown block type `foo` is rejected. -/
theorem C7_decoder_block_type_witness :
    ((true && false) = false ∧ ("foo" : String) ≠ "upsampling" ∧ ("foo" : String) ≠ "transpose") ∧
    (Unet "channels_last" testRegistry "vgg16" 1 "sigmoid" (some testSkips) "foo"
        [256, 128, 64, 32, 16] true false 2 none =
      Except.error ("Decoder block type should be in (\"upsampling\", \"transpose\"). Got: " ++ "foo", []) ∧
     decoderBlockOfType "upsampling" = Except.ok DecoderVariant.upsampling ∧
     decoderBlockOfType "transpose" = Except.ok DecoderVariant.transpose ∧
     Unet "channels_last" testRegistry "vgg16" 1 "sigmoid" (some testSkips) "upsampling"
        [256, 128, 64, 32, 16] true false 2 none =
       build_unet "channels_last" (testRegistry.get_backbone "vgg16")
         (DecoderVariant.upsampling.block "channels_last")
         (resolveFeatures testRegistry "vgg16" (some testSkips)) [256, 128, 64, 32, 16]
         ([256, 128, 64, 32, 16] : List Nat).length 1 "sigmoid" true false 2 none ∧
     Unet "channels_last" testRegistry "vgg16" 1 "sigmoid" (some testSkips) "transpose"
        [256, 128, 64, 32, 16] true false 2 none =
       build_unet "channels_last" (testRegistry.get_backbone "vgg16")
         (DecoderVariant.transpose.block "channels_last")
         (resolveFeatures testRegistry "vgg16" (some testSkips)) [256, 128, 64, 32, 16]
         ([256, 128, 64, 32, 16] : List Nat).length 1 "sigmoid" true false 2 none) :=
  ⟨⟨by decide, by decide, by decide⟩,
   C7_decoder_block_type "channels_last" testRegistry "vgg16" 1 "sigmoid" (some testSkips)
     [256, 128, 64, 32, 16] true false 2 none "foo" (by decide) (by decide) (by decide)⟩

/-- C8: every successful `build_unet` graph ends in the classification
head: a 3×3 same-padding convolution with bias enabled, the
variance-scaling-style `glorot_uniform` initializer and `classes` output
channels, followed by the final activation node — the last two nodes of
the graph. -/
theorem C8_classification_head (fmt : String) (b : Backbone) (v : DecoderVariant)
    (scl : List (String ⊕ Int)) (filters : List Nat) (classes : Nat) (act : String)
    (bn gn : Bool) (gg : Nat) (dr : Option Nat)
    (h : (bn && gn) = false) :
    ∃ (m : UModel) (pre : List Node),
      build_unet fmt b (v.block fmt) scl filters filters.length classes act bn gn gg dr =
        Except.ok m ∧
      m.nodes = pre ++ [Node.conv2D classes 3 3 "same" true "glorot_uniform" "final_conv",
                        Node.activationLayer act act] :=
  ⟨_, _, build_unet_eq fmt b v scl filters filters.length classes act bn gn gg dr h (le_refl _),
   rfl⟩

/-- C8 witness: a concrete five-class softmax head. -/
theorem C8_classification_head_witness :
    ((true && false) = false) ∧
    (∃ (m : UModel) (pre : List Node),
      build_unet "channels_last" testBackbone (DecoderVariant.upsampling.block "channels_last")
        testSkips [256, 128, 64, 32, 16] ([256, 128, 64, 32, 16] : List Nat).length 5 "softmax"
        true false 2 none = Except.ok m ∧
      m.nodes = pre ++ [Node.conv2D 5 3 3 "same" true "glorot_uniform" "final_conv",
                        Node.activationLayer "softmax" "softmax"]) :=
  ⟨by decide,
   C8_classification_head "channels_last" testBackbone DecoderVariant.upsampling testSkips
     [256, 128, 64, 32, 16] 5 "softmax" true false 2 none (by decide)⟩

/-- C9: every call reaching `build_unet` through the public `Unet` factory
succeeds (on a valid normalization configuration and a recognized block
type): `n_upsample_blocks` is set to `decoder_filters.length`, so every
stage-loop access `decoder_filters[i]` is in bounds and no index error can
occur. -/
theorem C9_stage_loop_in_bounds (fmt : String) (reg : Registry) (bname : String) (classes : Nat)
    (act : String) (ef : Option (List (String ⊕ Int))) (t : String) (v : DecoderVariant)
    (filters : List Nat) (bn gn : Bool) (gg : Nat) (dr : Option Nat)
    (h : (bn && gn) = false) (hv : decoderBlockOfType t = .ok v) :
    ∃ m : UModel, Unet fmt reg bname classes act ef t filters bn gn gg dr = Except.ok m :=
  ⟨_, (Unet_eq fmt reg bname classes act ef t v filters bn gn gg dr h hv).trans
    (build_unet_eq fmt (reg.get_backbone bname) v (resolveFeatures reg bname ef) filters
      filters.length classes act bn gn gg dr h (le_refl _))⟩

/-- C9 witness: a concrete `Unet` call succeeds. -/
theorem C9_stage_loop_in_bounds_witness :
    ((true && false) = false ∧
     decoderBlockOfType "transpose" = Except.ok DecoderVariant.transpose) ∧
    (∃ m : UModel,
      Unet "channels_last" testRegistry "vgg16" 1 "sigmoid" (some testSkips) "transpose"
        [256, 128, 64, 32, 16] true false 2 none = Except.ok m) :=
  ⟨⟨by decide, rfl⟩,
   C9_stage_loop_in_bounds "channels_last" testRegistry "vgg16" 1 "sigmoid" (some testSkips)
     "transpose" DecoderVariant.transpose [256, 128, 64, 32, 16] true false 2 none
     (by decide) rfl⟩

/-- C10: with the `default` encoder-features sentinel, `Unet` requests the
backbone's default feature layers with `n = 4`; when that list indeed has
4 descriptors and `decoder_filters` is the 5-element default, the build
succeeds and the last decoder stage (index 4, filters 16) is invoked with
no skip: its node sequence contains no skip-concatenation node. -/
theorem C10_default_four_skips (fmt : String) (reg : Registry) (bname : String) (classes : Nat)
    (act : String) (bn gn : Bool) (gg : Nat) (dr : Option Nat)
    (h : (bn && gn) = false) (hK : (reg.get_feature_layers bname 4).length = 4) :
    ∃ (m : UModel) (pre : List Node),
      Unet fmt reg bname classes act none "upsampling" [256, 128, 64, 32, 16] bn gn gg dr =
        Except.ok m ∧
      resolveFeatures reg bname none = reg.get_feature_layers bname 4 ∧
      m.nodes = pre ++ upStage1 fmt 16 4 dr gn gg bn false ++ headNodes classes act ∧
      hasConcat (upStage1 fmt 16 4 dr gn gg bn false) = false := by
  refine ⟨_,
    (if (reg.get_backbone bname).lastLayerIsMaxPool then centerNodes fmt bn gn gg dr else [])
      ++ (upStage1 fmt 256 0 dr gn gg bn true ++ (upStage1 fmt 128 1 dr gn gg bn true
        ++ (upStage1 fmt 64 2 dr gn gg bn true ++ upStage1 fmt 32 3 dr gn gg bn true))),
    (Unet_eq_none fmt reg bname classes act "upsampling" DecoderVariant.upsampling
        [256, 128, 64, 32, 16] bn gn gg dr h rfl).trans
      (build_unet_eq fmt (reg.get_backbone bname) DecoderVariant.upsampling
        (reg.get_feature_layers bname 4) [256, 128, 64, 32, 16]
        ([256, 128, 64, 32, 16] : List Nat).length classes act bn gn gg dr h (le_refl _)),
    rfl, ?_, ?_⟩
  · rw [hK]
    simp [stagesNodes_succ, stagesNodes_zero, DecoderVariant.stage1, List.append_assoc]
  · have hc := hasConcat_stage1 fmt DecoderVariant.upsampling 16 4 dr gn gg bn false
    simpa [DecoderVariant.stage1] using hc

/-- C10 witness: the concrete registry returns exactly 4 default
descriptors and the default five-stage decoder leaves stage 4 skip-less. -/
theorem C10_default_four_skips_witness :
    ((true && false) = false ∧ (testRegistry.get_feature_layers "vgg16" 4).length = 4) ∧
    (∃ (m : UModel) (pre : List Node),
      Unet "channels_last" testRegistry "vgg16" 1 "sigmoid" none "upsampling"
        [256, 128, 64, 32, 16] true false 2 none = Except.ok m ∧
      resolveFeatures testRegistry "vgg16" none = testRegistry.get_feature_layers "vgg16" 4 ∧
      m.nodes = pre ++ upStage1 "channels_last" 16 4 none false 2 true false
        ++ headNodes 1 "sigmoid" ∧
      hasConcat (upStage1 "channels_last" 16 4 none false 2 true false) = false) :=
  ⟨⟨by decide, by decide⟩,
   C10_default_four_skips "channels_last" testRegistry "vgg16" 1 "sigmoid" true false 2 none
     (by decide) (by decide)⟩
